import Mathlib

/-!
Verification of the MoodFit session-analytics engine (`src/utils/analytics.ts`)
against its natural-language specification.

The embedding models JS numbers as real numbers (`ℝ`).  `Math.hypot` is
`Real.sqrt` of the sum of squares, `Math.acos` is `Real.arccos`, `Math.round`
and `Number.toFixed(3)` are Mathlib's `round` (round half towards +∞, which is
the ECMAScript behaviour for the non-negative values arising here).  JS `null`
and `undefined` are `Option.none`.  `NaN` values produced by `smoothSeries`
for empty windows are modelled as `Option.none` (the code only ever inspects
them through `isFinite`).  `Infinity` for `minFramesForRep` is `⊤ : ℕ∞`.
-/

noncomputable section

/-- A pose landmark: the engine reads the `x`/`y` coordinates of MediaPipe
landmark objects (a landmark that is present carries numeric coordinates). -/
structure Landmark where
  x : ℝ
  y : ℝ

/-- `Math.hypot(dx, dy)`. -/
def hypot (dx dy : ℝ) : ℝ := Real.sqrt (dx * dx + dy * dy)

/-- `getAngle(a, b, c)` from `analytics.ts` (lines 119–131): the angle at
vertex `b` between rays `b→a` and `b→c`, in degrees, with the cosine clamped
to `[-1, 1]`; `null` when a point is missing or a ray has zero length. -/
def getAngle (a b c : Option Landmark) : Option ℝ :=
  match a, b, c with
  | some a, some b, some c =>
    let abx := a.x - b.x
    let aby := a.y - b.y
    let cbx := c.x - b.x
    let cby := c.y - b.y
    let dot := abx * cbx + aby * cby
    let magAB := hypot abx aby
    let magCB := hypot cbx cby
    if magAB = 0 ∨ magCB = 0 then Option.none
    else some (Real.arccos (max (-1) (min 1 (dot / (magAB * magCB)))) * 180 / Real.pi)
  | _, _, _ => Option.none

/-- Names of the metrics appearing in the rule registry and in the record
returned by `computeMetricAnglesFromLandmarks`.  `torso` and `standing_leg`
occur only as rule keys; the extractor never produces them (a JS property
lookup for them yields `undefined`). -/
inductive Metric where
  | knee
  | back
  | elbow
  | body
  | hip
  | front_knee
  | arms
  | torso
  | standing_leg
deriving DecidableEq

/-- The record `r` built by `computeMetricAnglesFromLandmarks`. -/
structure MetricAngles where
  knee : Option ℝ
  back : Option ℝ
  elbow : Option ℝ
  body : Option ℝ
  front_knee : Option ℝ
  hip : Option ℝ
  arms : Option ℝ

/-- Property lookup `(metricAngles as any)[mk]` on the record `r`:
`torso` and `standing_leg` are absent keys and read back as `undefined`. -/
def MetricAngles.get (r : MetricAngles) : Metric → Option ℝ
  | Metric.knee => r.knee
  | Metric.back => r.back
  | Metric.elbow => r.elbow
  | Metric.body => r.body
  | Metric.front_knee => r.front_knee
  | Metric.hip => r.hip
  | Metric.arms => r.arms
  | Metric.torso => Option.none
  | Metric.standing_leg => Option.none

/-- `lm[i] ? lm[i] : null` — index-addressed landmark access. -/
def pickLandmark (lm : List (Option Landmark)) (i : ℕ) : Option Landmark :=
  lm.getD i Option.none

/-- JS truthiness count `(L ? 1 : 0)` for an angle value (`0` is falsy). -/
def truthyCount (o : Option ℝ) : ℕ :=
  match o with
  | some v => if v = 0 then 0 else 1
  | Option.none => 0

/-- The bilateral combination expression of `computeMetricAnglesFromLandmarks`:
`[L, R].filter(Boolean).length ? ((L||0)+(R||0)) / ((L?1:0)+(R?1:0)) : null`. -/
def combineLR (l r : Option ℝ) : Option ℝ :=
  if truthyCount l + truthyCount r = 0 then Option.none
  else some ((l.getD 0 + r.getD 0) / (truthyCount l + truthyCount r))

/-- Left knee angle: `getAngle(leftHip, leftKnee, leftAnkle)` (landmarks 23, 25, 27).
The source guards this with `leftHip && leftKnee && leftAnkle ? … : null`, which
`getAngle` already performs for missing points. -/
def kneeL (lm : List (Option Landmark)) : Option ℝ :=
  getAngle (pickLandmark lm 23) (pickLandmark lm 25) (pickLandmark lm 27)

/-- Right knee angle (landmarks 24, 26, 28). -/
def kneeR (lm : List (Option Landmark)) : Option ℝ :=
  getAngle (pickLandmark lm 24) (pickLandmark lm 26) (pickLandmark lm 28)

/-- Left back angle: `getAngle(leftEar, leftShoulder, leftHip)` (7, 11, 23). -/
def backL (lm : List (Option Landmark)) : Option ℝ :=
  getAngle (pickLandmark lm 7) (pickLandmark lm 11) (pickLandmark lm 23)

/-- Right back angle (8, 12, 24). -/
def backR (lm : List (Option Landmark)) : Option ℝ :=
  getAngle (pickLandmark lm 8) (pickLandmark lm 12) (pickLandmark lm 24)

/-- Left elbow angle: `getAngle(leftShoulder, leftElbow, leftWrist)` (11, 13, 15). -/
def elbowL (lm : List (Option Landmark)) : Option ℝ :=
  getAngle (pickLandmark lm 11) (pickLandmark lm 13) (pickLandmark lm 15)

/-- Right elbow angle (12, 14, 16). -/
def elbowR (lm : List (Option Landmark)) : Option ℝ :=
  getAngle (pickLandmark lm 12) (pickLandmark lm 14) (pickLandmark lm 16)

/-- Left body angle: `getAngle(leftShoulder, leftHip, leftAnkle)` (11, 23, 27). -/
def bodyL (lm : List (Option Landmark)) : Option ℝ :=
  getAngle (pickLandmark lm 11) (pickLandmark lm 23) (pickLandmark lm 27)

/-- Right body angle (12, 24, 28). -/
def bodyR (lm : List (Option Landmark)) : Option ℝ :=
  getAngle (pickLandmark lm 12) (pickLandmark lm 24) (pickLandmark lm 28)

/-- `computeMetricAnglesFromLandmarks` (lines 165–210). -/
def computeMetricAnglesFromLandmarks (lm : List (Option Landmark)) : MetricAngles :=
  let knee := combineLR (kneeL lm) (kneeR lm)
  let back := combineLR (backL lm) (backR lm)
  let elbow := combineLR (elbowL lm) (elbowR lm)
  let body := combineLR (bodyL lm) (bodyR lm)
  let fk :=
    match pickLandmark lm 25, pickLandmark lm 26 with
    | some lk, some rk => if lk.y < rk.y then kneeL lm else kneeR lm
    | _, _ => knee
  let hip :=
    if (pickLandmark lm 23).isSome && (pickLandmark lm 11).isSome
        && (pickLandmark lm 25).isSome then
      getAngle (pickLandmark lm 11) (pickLandmark lm 23) (pickLandmark lm 25)
    else if (pickLandmark lm 24).isSome && (pickLandmark lm 12).isSome
        && (pickLandmark lm 26).isSome then
      getAngle (pickLandmark lm 12) (pickLandmark lm 24) (pickLandmark lm 26)
    else Option.none
  ⟨knee, back, elbow, body, fk, hip, elbow⟩

/-- Segmentation polarity of a Rule. -/
inductive Polarity where
  | valley
  | peak
  | none
deriving DecidableEq

/-- A per-metric scoring entry `{ ideal, tol }`. -/
structure MSpec where
  ideal : ℝ
  tol : ℝ

/-- A Rule of the registry.  `metrics` is the insertion-ordered object;
`minFramesForRep` uses `⊤ : ℕ∞` for the JS `Infinity` sentinel.  The source
also carries a `name` field, written only into the untyped `meta` record of
the result, which this model omits. -/
structure Rule where
  primaryMetric : Metric
  metrics : List (Metric × MSpec)
  minFramesForRep : ℕ∞
  correctRatioThreshold : ℝ
  framePassThreshold : ℝ
  polarity : Polarity

/-- Registry entry `squat`. -/
def squatRule : Rule :=
  ⟨Metric.knee, [(Metric.knee, ⟨90, 28⟩), (Metric.back, ⟨180, 40⟩)], 6, 0.55, 0.6, Polarity.valley⟩

/-- Registry entry `pushup`. -/
def pushupRule : Rule :=
  ⟨Metric.elbow, [(Metric.elbow, ⟨90, 28⟩), (Metric.body, ⟨180, 20⟩)], 6, 0.55, 0.6, Polarity.valley⟩

/-- Registry entry `plank`. -/
def plankRule : Rule :=
  ⟨Metric.body, [(Metric.body, ⟨180, 12⟩)], ⊤, 0.85, 0.85, Polarity.none⟩

/-- Registry entry `lunge`. -/
def lungeRule : Rule :=
  ⟨Metric.front_knee, [(Metric.front_knee, ⟨90, 22⟩), (Metric.torso, ⟨180, 30⟩)], 6, 0.55, 0.6, Polarity.valley⟩

/-- Registry entry `tree`. -/
def treeRule : Rule :=
  ⟨Metric.standing_leg, [(Metric.standing_leg, ⟨180, 15⟩), (Metric.arms, ⟨180, 25⟩)], ⊤, 0.9, 0.85, Polarity.none⟩

/-- Registry entry `warrior2`. -/
def warrior2Rule : Rule :=
  ⟨Metric.front_knee, [(Metric.front_knee, ⟨90, 20⟩), (Metric.arms, ⟨180, 20⟩)], ⊤, 0.85, 0.8, Polarity.none⟩

/-- Registry entry `default`. -/
def defaultRule : Rule :=
  ⟨Metric.knee, [(Metric.knee, ⟨90, 40⟩), (Metric.back, ⟨180, 40⟩)], 6, 0.5, 0.55, Polarity.valley⟩

/-- The `RULES` registry, in declaration order. -/
def RULES : List (List Char × Rule) :=
  [("squat".toList, squatRule), ("pushup".toList, pushupRule),
   ("plank".toList, plankRule), ("lunge".toList, lungeRule),
   ("tree".toList, treeRule), ("warrior2".toList, warrior2Rule),
   ("default".toList, defaultRule)]

/-- `rule.metrics[mk]`: JS object lookup on the metrics map. -/
def lookupMetric (ms : List (Metric × MSpec)) (m : Metric) : Option MSpec :=
  (ms.find? (fun p => decide (p.1 = m))).map Prod.snd

/-- `getMetricScore(value, spec)` (lines 219–225). -/
def getMetricScore (value : Option ℝ) (spec : Option MSpec) : Option ℝ :=
  match value, spec with
  | some v, some sp =>
    let err := |v - sp.ideal|
    let ef := if sp.tol ≤ 0 then (if err = 0 then (0 : ℝ) else 1) else min 1 (err / sp.tol)
    some (max 0 (1 - ef))
  | _, _ => Option.none

/-- `frameCategoryFromScore` (lines 227–233). -/
def frameCategoryFromScore (score : Option ℝ) : String :=
  match score with
  | Option.none => "Unknown"
  | some s =>
    if (0.85 : ℝ) ≤ s then "Excellent"
    else if (0.65 : ℝ) ≤ s then "Good"
    else if (0.40 : ℝ) ≤ s then "Fair"
    else "Poor"

/-- `Number(x.toFixed(3))`: round to three decimal places. -/
def round3 (x : ℝ) : ℝ := (round (x * 1000) : ℤ) / 1000

/-- The per-frame metric-score list (lines 260–267): scores of the rule's
metrics whose extracted value is non-null (`getMetricScore` yields `null`
exactly for those, and never `NaN` on real inputs). -/
def metricScores (rule : Rule) (ma : MetricAngles) : List ℝ :=
  rule.metrics.filterMap (fun msp => getMetricScore (MetricAngles.get ma msp.1) (some msp.2))

/-- The local `frameScore` of the frame loop (line 268), with the `NaN`
produced for an empty score list modelled as `none` (the code converts it to
`null` on line 269). -/
def frameScoreRaw (rule : Rule) (ma : MetricAngles) : Option ℝ :=
  let s := metricScores rule ma
  if s.length = 0 then Option.none else some (s.sum / s.length)

/-- One frame of a recorded session (`FullSession.frames[i]`). -/
structure Frame where
  t : ℝ
  landmarks : List (Option Landmark)

/-- The fields of `FullSession` that the analytics engine reads. -/
structure Session where
  exercise : List Char
  frames : List Frame

/-- A timeline entry (`AnalyticsPoint`), with the values it holds after the
frame loop completes. -/
structure AnalyticsPoint where
  t : ℝ
  kneeAngle : Option ℝ
  backAngle : Option ℝ
  elbowAngle : Option ℝ
  bodyAngle : Option ℝ
  hipAngle : Option ℝ
  score : Option ℝ
  category : String
  correct : Bool

/-- The body of the frame loop (lines 243–276): metric extraction, frame
score (rounded to three decimals for storage), category, legacy flag. -/
def mkPoint (rule : Rule) (f : Frame) : AnalyticsPoint :=
  let ma := computeMetricAnglesFromLandmarks f.landmarks
  let score := (frameScoreRaw rule ma).map round3
  ⟨f.t, ma.knee, ma.back, ma.elbow, ma.body, ma.hip, score,
    frameCategoryFromScore score,
    match score with
    | some s => if rule.framePassThreshold ≤ s then true else false
    | Option.none => false⟩

/-- The timeline built by the frame loop. -/
def mkTimeline (rule : Rule) (frames : List Frame) : List AnalyticsPoint :=
  frames.map (mkPoint rule)

/-- Series selection for the primary metric (lines 287–294).  Note the
`front_knee` branch reads `pt.kneeAngle`. -/
def primarySeriesPoint (primary : Metric) (pt : AnalyticsPoint) : Option ℝ :=
  match primary with
  | Metric.knee => pt.kneeAngle
  | Metric.back => pt.backAngle
  | Metric.elbow => pt.elbowAngle
  | Metric.body => pt.bodyAngle
  | Metric.front_knee => pt.kneeAngle
  | _ => pt.kneeAngle <|> pt.elbowAngle <|> pt.bodyAngle

/-- The `arr` series handed to the smoothing filter (line 287). -/
def primarySeries (rule : Rule) (timeline : List AnalyticsPoint) : List (Option ℝ) :=
  timeline.map (primarySeriesPoint rule.primaryMetric)

/-- `smoothSeries(vals, radius)` (lines 133–144), with the `NaN` for an empty
window modelled as `none`. -/
def smoothSeries (vals : List (Option ℝ)) (radius : ℕ) : List (Option ℝ) :=
  (List.range vals.length).map (fun i =>
    let win := ((vals.take (i + radius + 1)).drop (i - radius)).filterMap id
    if win.length = 0 then Option.none else some (win.sum / win.length))

/-- JS `a < b` where either operand may be `NaN`/missing (modelled `none`):
any comparison against a missing value is false. -/
def optLtB (a b : Option ℝ) : Bool :=
  match a, b with
  | some x, some y => if x < y then true else false
  | _, _ => false

/-- The valley indices of the smoothed series (lines 297–303). -/
def detectValleys (s : List (Option ℝ)) : List ℕ :=
  (List.range s.length).filter (fun i =>
    decide (0 < i) && decide (i + 1 < s.length)
      && optLtB (s.getD i Option.none) (s.getD (i - 1) Option.none)
      && optLtB (s.getD i Option.none) (s.getD (i + 1) Option.none))

/-- The peak indices of the smoothed series (lines 297–303). -/
def detectPeaks (s : List (Option ℝ)) : List ℕ :=
  (List.range s.length).filter (fun i =>
    decide (0 < i) && decide (i + 1 < s.length)
      && optLtB (s.getD (i - 1) Option.none) (s.getD i Option.none)
      && optLtB (s.getD (i + 1) Option.none) (s.getD i Option.none))

/-- `list.slice(si, ei + 1)`. -/
def sliceList {α : Type} (l : List α) (si ei : ℕ) : List α :=
  (l.drop si).take (ei + 1 - si)

/-- `Math.min(...xs)` over a non-empty spread, as an option. -/
def listMin : List ℝ → Option ℝ
  | [] => Option.none
  | x :: xs =>
    some (match listMin xs with
          | Option.none => x
          | some m => min x m)

/-- `Math.max(...xs)` over a non-empty spread, as an option. -/
def listMax : List ℝ → Option ℝ
  | [] => Option.none
  | x :: xs =>
    some (match listMax xs with
          | Option.none => x
          | some m => max x m)

/-- One emitted repetition record.  The source's legacy `correctRatio` field
(always equal to `avgFrameScore`) is modelled as `correctRatioScore`. -/
structure RepDetail where
  startT : ℝ
  endT : ℝ
  minV : Option ℝ
  maxV : Option ℝ
  isGood : Bool
  avgFrameScore : ℝ
  correctRatioScore : ℝ
  category : String
  frames : ℕ

/-- `meetsDepth` of the rep loop (lines 325–331): initialised `false`, set by
the polarity tests when the primary spec exists, `true` when it does not. -/
def repDepthBool (rule : Rule) (minV maxV : ℝ) : Bool :=
  match lookupMetric rule.metrics rule.primaryMetric with
  | some sp =>
    match rule.polarity with
    | Polarity.valley => if |minV - sp.ideal| ≤ sp.tol then true else false
    | Polarity.peak => if |maxV - sp.ideal| ≤ sp.tol then true else false
    | Polarity.none => false
  | Option.none => true

/-- `closeDepth` (lines 335–338): a ternary on `polarity === "valley"`,
testing against half the tolerance; `false` without a primary spec. -/
def repCloseBool (rule : Rule) (minV maxV : ℝ) : Bool :=
  match lookupMetric rule.metrics rule.primaryMetric with
  | some sp =>
    if rule.polarity = Polarity.valley then
      (if |minV - sp.ideal| ≤ sp.tol * 0.5 then true else false)
    else
      (if |maxV - sp.ideal| ≤ sp.tol * 0.5 then true else false)
  | Option.none => false

/-- `isGood` (line 340). -/
def repIsGood (rule : Rule) (minV maxV avg : ℝ) : Bool :=
  (repDepthBool rule minV maxV && (if rule.correctRatioThreshold ≤ avg then true else false))
    || (repCloseBool rule minV maxV
        && (if max 0.4 (rule.correctRatioThreshold - 0.18) ≤ avg then true else false))

/-- The body of the rep loop for one pair of consecutive key indices
(lines 309–356); `none` models `continue`.  The `minFramesForRep || 6`
coalescing treats `0` as falsy; `minV`/`maxV` of the non-empty finite
segment are always finite, so they are stored as `some`. -/
def mkRep (rule : Rule) (timeline : List AnalyticsPoint) (smoothed : List (Option ℝ))
    (si ei : ℕ) : Option RepDetail :=
  let minF : ℕ∞ := if rule.minFramesForRep = 0 then 6 else rule.minFramesForRep
  if ((ei - si : ℕ) : ℕ∞) < minF then Option.none
  else
    let segment := sliceList timeline si ei
    let smoothSeg := (sliceList smoothed si ei).filterMap id
    if smoothSeg.isEmpty then Option.none
    else
      let minV := (listMin smoothSeg).getD 0
      let maxV := (listMax smoothSeg).getD 0
      let frameScores := segment.map (fun s => (AnalyticsPoint.score s).getD 0)
      let avg := if frameScores.length = 0 then (0 : ℝ) else frameScores.sum / frameScores.length
      some ⟨((segment.head?).map AnalyticsPoint.t).getD 0,
            ((segment.getLast?).map AnalyticsPoint.t).getD 0,
            some minV, some maxV,
            repIsGood rule minV maxV avg,
            avg, avg,
            frameCategoryFromScore (some avg),
            segment.length⟩

/-- One entry of `sampledForChart`. -/
structure SampledPoint where
  timeSec : ℤ
  value : Option ℝ
  value2 : Option ℝ
  correct : Bool
  score : Option ℝ
  category : String

/-- `buildSampled(timeline, step)` (lines 146–160): every `step`-th timeline
point (the loop `i += step` assumes the caller's stride is at least 1). -/
def buildSampled (timeline : List AnalyticsPoint) (step : ℕ) : List SampledPoint :=
  ((List.range timeline.length).filter (fun i => decide (i % step = 0))).filterMap
    (fun i => (timeline.get? i).map (fun p =>
      ⟨round (p.t / 1000),
       p.kneeAngle <|> p.elbowAngle <|> p.bodyAngle <|> p.backAngle,
       p.backAngle <|> p.bodyAngle,
       p.correct, p.score, p.category⟩))

/-- The result record (`meta` omitted: it is an untyped grab-bag holding only
the rule name).  The two category-count dictionaries are modelled as their
lookup functions: the count of timeline points (resp. reps) per category. -/
structure AnalyticsResult where
  totalFrames : ℕ
  correctFrames : ℕ
  accuracyPct : ℤ
  timeline : List AnalyticsPoint
  goodReps : ℕ
  badReps : ℕ
  repDetails : List RepDetail
  sampledForChart : List SampledPoint
  categoryCounts : String → ℕ
  repCategoryCounts : String → ℕ
  overallWeightedScore : ℤ

/-- The caller-supplied options object. -/
structure AnalyzeOpts where
  smoothRadius : Option ℕ
  sampleStep : Option ℕ

/-- `analyzeByRule(session, rule, opts)` (lines 238–391). -/
def analyzeByRule (session : Session) (rule : Rule) (opts : AnalyzeOpts) : AnalyticsResult :=
  let smoothRadius := opts.smoothRadius.getD 2
  let sampleStep := opts.sampleStep.getD 1
  let timeline := mkTimeline rule session.frames
  let totalFrames := timeline.length
  let correctFrames := (timeline.filter (fun p => p.correct)).length
  let avgScore : ℝ :=
    if totalFrames = 0 then 0
    else (timeline.map (fun p => (AnalyticsPoint.score p).getD 0)).sum / totalFrames
  let arr := primarySeries rule timeline
  let smoothed := smoothSeries arr smoothRadius
  let keyIndices := if rule.polarity = Polarity.peak then detectPeaks smoothed else detectValleys smoothed
  let repDetails := (keyIndices.zip keyIndices.tail).filterMap
    (fun p => mkRep rule timeline smoothed p.1 p.2)
  let goodReps := (repDetails.filter (fun r => r.isGood)).length
  ⟨totalFrames, correctFrames, round (avgScore * 100), timeline,
   goodReps, repDetails.length - goodReps, repDetails,
   buildSampled timeline sampleStep,
   (fun c => (timeline.filter (fun p => p.category == c)).length),
   (fun c => (repDetails.filter (fun r => r.category == c)).length),
   round (avgScore * 100)⟩

/-- `toLowerCase()` on the character list of a string. -/
def lowerChars (s : List Char) : List Char := s.map Char.toLower

/-- `trim()`: strip whitespace from both ends. -/
def trimChars (s : List Char) : List Char :=
  ((s.dropWhile Char.isWhitespace).reverse.dropWhile Char.isWhitespace).reverse

/-- `activityId.toLowerCase().trim()`. -/
def normalizeId (s : List Char) : List Char := trimChars (lowerChars s)

/-- Whether `needle` occurs at the start of `hay`. -/
def leadsWith : List Char → List Char → Bool
  | [], _ => true
  | _ :: _, [] => false
  | a :: as, b :: bs => a == b && leadsWith as bs

/-- `hay.includes(needle)`: substring containment. -/
def occursIn (needle : List Char) : List Char → Bool
  | [] => leadsWith needle []
  | c :: rest => leadsWith needle (c :: rest) || occursIn needle rest

/-- `Object.keys(RULES).find(k => ex.includes(k)) || "default"` (line 398). -/
def resolveRuleKey (ex0 : List Char) : List Char :=
  let ex := normalizeId ex0
  ((RULES.map Prod.fst).find? (fun k => occursIn k ex)).getD ("default".toList)

/-- `RULES[ruleKey] || RULES.default` (line 399). -/
def resolveRule (ex0 : List Char) : Rule :=
  ((RULES.find? (fun kr => kr.1 == resolveRuleKey ex0)).map Prod.snd).getD defaultRule

/-- `computeExerciseAnalytics(session, opts)` (lines 396–402). -/
def computeExerciseAnalytics (session : Session) (opts : AnalyzeOpts) : AnalyticsResult :=
  analyzeByRule session (resolveRule session.exercise) opts

/-!  Specification-side definitions, written from the spec's words, for the
refinement-style claims.  -/

/-- Spec 4.3 bilateral policy, amended for the code's truthiness test: a side
whose angle is exactly `0` counts as unavailable.  Both sides available →
arithmetic mean; exactly one → that side; neither → null. -/
def specCombine (l r : Option ℝ) : Option ℝ :=
  match l, r with
  | some a, some b =>
    if a ≠ 0 ∧ b ≠ 0 then some ((a + b) / 2)
    else if a ≠ 0 then some a
    else if b ≠ 0 then some b
    else Option.none
  | some a, Option.none => if a ≠ 0 then some a else Option.none
  | Option.none, some b => if b ≠ 0 then some b else Option.none
  | Option.none, Option.none => Option.none

/-- Spec 4.1 matching policy as a direct first-match recursion over the
registry: return the rule of the first key that is a substring of the
normalized identifier. -/
def firstMatch (n : List Char) : List (List Char × Rule) → Option Rule
  | [] => Option.none
  | kr :: rest => if occursIn kr.1 n then some kr.2 else firstMatch n rest

/-- Spec 4.1 `resolveRule`: normalize, first-match in declaration order,
default fallback. -/
def specResolveRule (activityId : List Char) : Rule :=
  (firstMatch (normalizeId activityId) RULES).getD defaultRule

/-- Spec 4.7 `meetsDepth`, read off an emitted rep record: the depth test on
`minV` for valley polarity and on `maxV` for peak polarity, against the
primary metric's tolerance (vacuously true without a primary spec). -/
def specMeetsDepth (rule : Rule) (rep : RepDetail) : Prop :=
  match lookupMetric rule.metrics rule.primaryMetric with
  | some sp =>
    |(if rule.polarity = Polarity.valley then rep.minV.getD 0 else rep.maxV.getD 0) - sp.ideal| ≤ sp.tol
  | Option.none => True

/-- Spec 4.7 `closeDepth`: the same depth test against half the tolerance
(false without a primary spec). -/
def specCloseDepth (rule : Rule) (rep : RepDetail) : Prop :=
  match lookupMetric rule.metrics rule.primaryMetric with
  | some sp =>
    |(if rule.polarity = Polarity.valley then rep.minV.getD 0 else rep.maxV.getD 0) - sp.ideal| ≤ sp.tol * 0.5
  | Option.none => False

/-- Spec 4.7 `isGood` formula over an emitted rep record. -/
def specIsGoodRep (rule : Rule) (rep : RepDetail) : Prop :=
  (specMeetsDepth rule rep ∧ rule.correctRatioThreshold ≤ rep.avgFrameScore)
    ∨ (specCloseDepth rule rep ∧ max 0.4 (rule.correctRatioThreshold - 0.18) ≤ rep.avgFrameScore)

/-!  Concrete inputs used by counterexamples and witnesses.  Landmark indices
23–28 are left/right hip, knee, ankle.  -/

/-- Padding for landmark indices 0–22, which the knee metrics never read. -/
def pad23 : List (Option Landmark) := List.replicate 23 Option.none

/-- A frame shape whose left leg is fully extended: left hip `(0,0)`, left
knee `(0,1)`, left ankle `(0,2)` — left knee angle 180°; no other landmarks. -/
def lmHi : List (Option Landmark) :=
  pad23 ++ [some ⟨0, 0⟩, Option.none, some ⟨0, 1⟩, Option.none, some ⟨0, 2⟩]

/-- A frame shape whose left leg is bent at a right angle: left hip `(0,0)`,
left knee `(0,1)`, left ankle `(1,1)` — left knee angle 90°. -/
def lmLo : List (Option Landmark) :=
  pad23 ++ [some ⟨0, 0⟩, Option.none, some ⟨0, 1⟩, Option.none, some ⟨1, 1⟩]

/-- Both knees present: left knee angle 90° (hip `(0,0)`, knee `(0,1)`, ankle
`(1,1)`), right knee angle 180° (hip `(5,0)`, knee `(5,2)`, ankle `(5,4)`);
the left knee has the smaller `y`, so it is the front knee. -/
def lmFK : List (Option Landmark) :=
  pad23 ++ [some ⟨0, 0⟩, some ⟨5, 0⟩, some ⟨0, 1⟩, some ⟨5, 2⟩, some ⟨1, 1⟩, some ⟨5, 4⟩]

/-- Both knees computable with the left knee angle exactly 0°: left hip
`(0,0)`, left knee `(0,2)`, left ankle `(0,1)` (hip and ankle on the same ray
from the knee), right side bent at 90° (hip `(1,0)`, knee `(1,1)`, ankle
`(2,1)`). -/
def lmZero : List (Option Landmark) :=
  pad23 ++ [some ⟨0, 0⟩, some ⟨1, 0⟩, some ⟨0, 2⟩, some ⟨1, 1⟩, some ⟨0, 1⟩, some ⟨2, 1⟩]

/-- A single-metric valley rule used to exercise the rep segmenter. -/
def testRule : Rule :=
  ⟨Metric.knee, [(Metric.knee, ⟨90, 40⟩)], 2, 0.5, 0.55, Polarity.valley⟩

/-- Six frames whose knee series is `[180, 90, 180, 180, 90, 180]`: valleys
at indices 1 and 4. -/
def testSession : Session :=
  ⟨"squat".toList,
   [⟨0, lmHi⟩, ⟨1, lmLo⟩, ⟨2, lmHi⟩, ⟨3, lmHi⟩, ⟨4, lmLo⟩, ⟨5, lmHi⟩]⟩

/-- Options selecting smoothing radius 0 (identity smoothing) and stride 1. -/
def testOpts : AnalyzeOpts := ⟨some 0, some 1⟩

/-- The timeline point produced by `testRule` for an `lmHi` frame at time `t`. -/
def ptHi (t : ℝ) : AnalyticsPoint :=
  ⟨t, some 180, Option.none, Option.none, Option.none, Option.none, some 0, "Poor", false⟩

/-- The timeline point produced by `testRule` for an `lmLo` frame at time `t`. -/
def ptLo (t : ℝ) : AnalyticsPoint :=
  ⟨t, some 90, Option.none, Option.none, Option.none, Option.none, some 1, "Excellent", true⟩

/-- The single rep emitted for `testSession` under `testRule`. -/
def testRep : RepDetail :=
  ⟨1, 4, some 90, some 180, true, 1 / 2, 1 / 2, "Fair", 4⟩

/-- A metric-angle record with ideal squat values, used to exercise the
frame scorer directly. -/
def maW : MetricAngles :=
  ⟨some 90, some 180, Option.none, Option.none, Option.none, Option.none, Option.none⟩

/-- The timeline `testRule` produces for `testSession`. -/
def testTimeline : List AnalyticsPoint :=
  [ptHi 0, ptLo 1, ptHi 2, ptHi 3, ptLo 4, ptHi 5]

/-- The primary-metric series of `testTimeline`, which radius-0 smoothing
maps to itself. -/
def testSmoothed : List (Option ℝ) :=
  [some 180, some 90, some 180, some 180, some 90, some 180]

/-!  General helper lemmas.  -/

theorem iteTF (c : Prop) [Decidable c] : ((if c then true else false) = true) ↔ c := by
  by_cases h : c <;> simp [h]

theorem hypot_eval (dx dy r : ℝ) (hr : 0 ≤ r) (h : dx * dx + dy * dy = r * r) :
    hypot dx dy = r := by
  rw [hypot, h, Real.sqrt_mul_self hr]

theorem getAngle_formula (ax ay bx bY cx cy : ℝ) :
    getAngle (some ⟨ax, ay⟩) (some ⟨bx, bY⟩) (some ⟨cx, cy⟩) =
      (if hypot (ax - bx) (ay - bY) = 0 ∨ hypot (cx - bx) (cy - bY) = 0 then Option.none
       else some (Real.arccos (max (-1) (min 1
          (((ax - bx) * (cx - bx) + (ay - bY) * (cy - bY))
            / (hypot (ax - bx) (ay - bY) * hypot (cx - bx) (cy - bY))))) * 180 / Real.pi)) :=
  rfl

theorem angleDeg_one : Real.arccos (max (-1) (min 1 (1 : ℝ))) * 180 / Real.pi = 0 := by
  norm_num [Real.arccos_one]

theorem angleDeg_zero : Real.arccos (max (-1) (min 1 (0 : ℝ))) * 180 / Real.pi = 90 := by
  have hp := Real.pi_ne_zero
  rw [show max (-1) (min 1 (0 : ℝ)) = 0 by norm_num, Real.arccos_zero]
  field_simp
  ring

theorem angleDeg_negOne : Real.arccos (max (-1) (min 1 (-1 : ℝ))) * 180 / Real.pi = 180 := by
  have hp := Real.pi_ne_zero
  rw [show max (-1) (min 1 (-1 : ℝ)) = -1 by norm_num, Real.arccos_neg_one]
  field_simp

/-- Evaluation of `getAngle` at a concrete triple with known magnitudes and
cosine. -/
theorem getAngle_eval (ax ay bx bY cx cy r1 r2 cv : ℝ)
    (h1 : hypot (ax - bx) (ay - bY) = r1) (h2 : hypot (cx - bx) (cy - bY) = r2)
    (hr1 : r1 ≠ 0) (hr2 : r2 ≠ 0)
    (hcv : ((ax - bx) * (cx - bx) + (ay - bY) * (cy - bY)) / (r1 * r2) = cv) :
    getAngle (some ⟨ax, ay⟩) (some ⟨bx, bY⟩) (some ⟨cx, cy⟩)
      = some (Real.arccos (max (-1) (min 1 cv)) * 180 / Real.pi) := by
  rw [getAngle_formula, h1, h2, if_neg (by simp [hr1, hr2]), hcv]

theorem ga90 : getAngle (some ⟨0, 0⟩) (some ⟨0, 1⟩) (some ⟨1, 1⟩) = some 90 := by
  rw [getAngle_eval 0 0 0 1 1 1 1 1 0 (hypot_eval _ _ _ (by norm_num) (by norm_num))
    (hypot_eval _ _ _ (by norm_num) (by norm_num)) (by norm_num) (by norm_num) (by norm_num),
    angleDeg_zero]

theorem ga90b : getAngle (some ⟨1, 0⟩) (some ⟨1, 1⟩) (some ⟨2, 1⟩) = some 90 := by
  rw [getAngle_eval 1 0 1 1 2 1 1 1 0 (hypot_eval _ _ _ (by norm_num) (by norm_num))
    (hypot_eval _ _ _ (by norm_num) (by norm_num)) (by norm_num) (by norm_num) (by norm_num),
    angleDeg_zero]

theorem ga180 : getAngle (some ⟨0, 0⟩) (some ⟨0, 1⟩) (some ⟨0, 2⟩) = some 180 := by
  rw [getAngle_eval 0 0 0 1 0 2 1 1 (-1) (hypot_eval _ _ _ (by norm_num) (by norm_num))
    (hypot_eval _ _ _ (by norm_num) (by norm_num)) (by norm_num) (by norm_num) (by norm_num),
    angleDeg_negOne]

theorem ga180b : getAngle (some ⟨5, 0⟩) (some ⟨5, 2⟩) (some ⟨5, 4⟩) = some 180 := by
  rw [getAngle_eval 5 0 5 2 5 4 2 2 (-1) (hypot_eval _ _ _ (by norm_num) (by norm_num))
    (hypot_eval _ _ _ (by norm_num) (by norm_num)) (by norm_num) (by norm_num) (by norm_num),
    angleDeg_negOne]

theorem ga0 : getAngle (some ⟨0, 0⟩) (some ⟨0, 2⟩) (some ⟨0, 1⟩) = some 0 := by
  rw [getAngle_eval 0 0 0 2 0 1 2 1 1 (hypot_eval _ _ _ (by norm_num) (by norm_num))
    (hypot_eval _ _ _ (by norm_num) (by norm_num)) (by norm_num) (by norm_num) (by norm_num),
    angleDeg_one]

/-- C6: `getAngle` returns a value in `[0, 180]` when all three points are
present and both rays have non-zero length, and returns `null` — never `NaN`
and never throwing — exactly when a point is missing or a ray is degenerate. -/
theorem getAngle_spec (a b c : Option Landmark) :
    (∀ v, getAngle a b c = some v → 0 ≤ v ∧ v ≤ 180) ∧
    (getAngle a b c = Option.none ↔
      a = Option.none ∨ b = Option.none ∨ c = Option.none ∨
        ∃ pa pb pc, a = some pa ∧ b = some pb ∧ c = some pc ∧
          (hypot (pa.x - pb.x) (pa.y - pb.y) = 0 ∨ hypot (pc.x - pb.x) (pc.y - pb.y) = 0)) := by
  rcases a with _ | pa
  · exact ⟨fun v hv => by simp [getAngle] at hv, by simp [getAngle]⟩
  rcases b with _ | pb
  · exact ⟨fun v hv => by simp [getAngle] at hv, by simp [getAngle]⟩
  rcases c with _ | pc
  · exact ⟨fun v hv => by simp [getAngle] at hv, by simp [getAngle]⟩
  constructor
  · intro v hv
    by_cases hd : hypot (pa.x - pb.x) (pa.y - pb.y) = 0 ∨ hypot (pc.x - pb.x) (pc.y - pb.y) = 0
    · simp [getAngle, hd] at hv
    · simp only [getAngle, if_neg hd, Option.some.injEq] at hv
      subst hv
      constructor
      · exact div_nonneg (mul_nonneg (Real.arccos_nonneg _) (by norm_num)) Real.pi_pos.le
      · rw [div_le_iff₀ Real.pi_pos]
        calc Real.arccos _ * 180 ≤ Real.pi * 180 :=
              mul_le_mul_of_nonneg_right (Real.arccos_le_pi _) (by norm_num)
          _ = 180 * Real.pi := by ring
  · constructor
    · intro h
      by_cases hd : hypot (pa.x - pb.x) (pa.y - pb.y) = 0 ∨ hypot (pc.x - pb.x) (pc.y - pb.y) = 0
      · exact Or.inr (Or.inr (Or.inr ⟨pa, pb, pc, rfl, rfl, rfl, hd⟩))
      · simp [getAngle, hd] at h
    · rintro (h | h | h | ⟨qa, qb, qc, ha, hb, hc, hd⟩)
      · exact absurd h (by simp)
      · exact absurd h (by simp)
      · exact absurd h (by simp)
      · obtain rfl := Option.some_inj.mp ha
        obtain rfl := Option.some_inj.mp hb
        obtain rfl := Option.some_inj.mp hc
        simp [getAngle, hd]

/-- Witness for C6 at a concrete right angle. -/
theorem getAngle_spec_witness :
    ∃ v, getAngle (some ⟨0, 0⟩) (some ⟨0, 1⟩) (some ⟨1, 1⟩) = some v ∧ 0 ≤ v ∧ v ≤ 180 :=
  ⟨90, ga90, (getAngle_spec _ _ _).1 90 ga90⟩

/-- C1 (evidence for a code bug): on a session whose frame list is empty,
`computeExerciseAnalytics` does not signal any failure to the caller — it
returns an ordinary degraded `AnalyticsResult` with zero frames, zero
accuracy, an empty timeline and no reps. -/
theorem emptyFrames_degrades :
    (computeExerciseAnalytics ⟨"squat".toList, []⟩ ⟨Option.none, Option.none⟩).totalFrames = 0 ∧
    (computeExerciseAnalytics ⟨"squat".toList, []⟩ ⟨Option.none, Option.none⟩).timeline = [] ∧
    (computeExerciseAnalytics ⟨"squat".toList, []⟩ ⟨Option.none, Option.none⟩).accuracyPct = 0 ∧
    (computeExerciseAnalytics ⟨"squat".toList, []⟩ ⟨Option.none, Option.none⟩).repDetails = [] ∧
    (computeExerciseAnalytics ⟨"squat".toList, []⟩ ⟨Option.none, Option.none⟩).goodReps = 0 ∧
    (computeExerciseAnalytics ⟨"squat".toList, []⟩ ⟨Option.none, Option.none⟩).correctFrames = 0 := by
  simp [computeExerciseAnalytics, analyzeByRule, mkTimeline, primarySeries, smoothSeries,
    detectValleys, detectPeaks, buildSampled]

/-!  Evaluation of the bilateral combination.  -/

theorem combineLR_single (v : ℝ) (hv : v ≠ 0) : combineLR (some v) Option.none = some v := by
  simp [combineLR, truthyCount, hv]

theorem combineLR_both (a bv : ℝ) (ha : a ≠ 0) (hb : bv ≠ 0) :
    combineLR (some a) (some bv) = some ((a + bv) / 2) := by
  simp [combineLR, truthyCount, ha, hb]
  norm_num

theorem combineLR_zero_left (bv : ℝ) (hb : bv ≠ 0) :
    combineLR (some 0) (some bv) = some bv := by
  simp [combineLR, truthyCount, hb]

/-- Amended bilateral policy as one combination function equation: the code's
expression agrees with the zero-aware mean policy `specCombine`. -/
theorem combineLR_eq_specCombine (l r : Option ℝ) : combineLR l r = specCombine l r := by
  rcases l with _ | a <;> rcases r with _ | b
  · rfl
  · by_cases hb : b = 0 <;> simp [combineLR, specCombine, truthyCount, hb]
  · by_cases ha : a = 0 <;> simp [combineLR, specCombine, truthyCount, ha]
  · by_cases ha : a = 0 <;> by_cases hb : b = 0 <;>
      · simp [combineLR, specCombine, truthyCount, ha, hb]
        try norm_num

/-!  Metric extraction at the concrete frame shapes.  -/

theorem cm_lmHi : computeMetricAnglesFromLandmarks lmHi =
    ⟨some 180, Option.none, Option.none, Option.none, some 180, Option.none, Option.none⟩ := by
  have ek : combineLR (kneeL lmHi) (kneeR lmHi) = some 180 := by
    have h1 : kneeL lmHi = getAngle (some ⟨0, 0⟩) (some ⟨0, 1⟩) (some ⟨0, 2⟩) := rfl
    have h2 : kneeR lmHi = Option.none := rfl
    rw [h1, h2, ga180, combineLR_single 180 (by norm_num)]
  show (⟨combineLR (kneeL lmHi) (kneeR lmHi), Option.none, Option.none, Option.none,
    combineLR (kneeL lmHi) (kneeR lmHi), Option.none, Option.none⟩ : MetricAngles) = _
  rw [ek]

theorem cm_lmLo : computeMetricAnglesFromLandmarks lmLo =
    ⟨some 90, Option.none, Option.none, Option.none, some 90, Option.none, Option.none⟩ := by
  have ek : combineLR (kneeL lmLo) (kneeR lmLo) = some 90 := by
    have h1 : kneeL lmLo = getAngle (some ⟨0, 0⟩) (some ⟨0, 1⟩) (some ⟨1, 1⟩) := rfl
    have h2 : kneeR lmLo = Option.none := rfl
    rw [h1, h2, ga90, combineLR_single 90 (by norm_num)]
  show (⟨combineLR (kneeL lmLo) (kneeR lmLo), Option.none, Option.none, Option.none,
    combineLR (kneeL lmLo) (kneeR lmLo), Option.none, Option.none⟩ : MetricAngles) = _
  rw [ek]

theorem kneeL_lmFK : kneeL lmFK = some 90 := by
  have h1 : kneeL lmFK = getAngle (some ⟨0, 0⟩) (some ⟨0, 1⟩) (some ⟨1, 1⟩) := rfl
  rw [h1, ga90]

theorem kneeR_lmFK : kneeR lmFK = some 180 := by
  have h1 : kneeR lmFK = getAngle (some ⟨5, 0⟩) (some ⟨5, 2⟩) (some ⟨5, 4⟩) := rfl
  rw [h1, ga180b]

theorem cm_lmFK : computeMetricAnglesFromLandmarks lmFK =
    ⟨some 135, Option.none, Option.none, Option.none, some 90, Option.none, Option.none⟩ := by
  have ek : combineLR (kneeL lmFK) (kneeR lmFK) = some 135 := by
    rw [kneeL_lmFK, kneeR_lmFK, combineLR_both 90 180 (by norm_num) (by norm_num)]
    norm_num
  show (⟨combineLR (kneeL lmFK) (kneeR lmFK), Option.none, Option.none, Option.none,
    (if (1 : ℝ) < 2 then kneeL lmFK else kneeR lmFK), Option.none, Option.none⟩ : MetricAngles) = _
  rw [ek, if_pos (by norm_num : (1 : ℝ) < 2), kneeL_lmFK]

theorem kneeL_lmZero : kneeL lmZero = some 0 := by
  have h1 : kneeL lmZero = getAngle (some ⟨0, 0⟩) (some ⟨0, 2⟩) (some ⟨0, 1⟩) := rfl
  rw [h1, ga0]

theorem kneeR_lmZero : kneeR lmZero = some 90 := by
  have h1 : kneeR lmZero = getAngle (some ⟨1, 0⟩) (some ⟨1, 1⟩) (some ⟨2, 1⟩) := rfl
  rw [h1, ga90b]

/-- C3 counterexample: on `lmZero` both knee angles are computable (left is
exactly 0°, right is 90°), yet the knee metric is 90, not the arithmetic mean
45 — the code's truthiness test drops a computable 0° side. -/
theorem bilateral_mean_cx :
    kneeL lmZero = some 0 ∧ kneeR lmZero = some 90 ∧
    (computeMetricAnglesFromLandmarks lmZero).knee = some 90 ∧
    (90 : ℝ) ≠ ((0 : ℝ) + 90) / 2 := by
  refine ⟨kneeL_lmZero, kneeR_lmZero, ?_, by norm_num⟩
  have ek : combineLR (kneeL lmZero) (kneeR lmZero) = some 90 := by
    rw [kneeL_lmZero, kneeR_lmZero, combineLR_zero_left 90 (by norm_num)]
  exact ek

/-- C3 amended: for the bilateral metrics (knee, back, elbow, body) the code
follows the mean/one-side/null policy with "computable" strengthened to
"computable and non-zero": a side whose angle is exactly 0° is treated as
missing. -/
theorem bilateral_policy_amended (lm : List (Option Landmark)) :
    (computeMetricAnglesFromLandmarks lm).knee = specCombine (kneeL lm) (kneeR lm) ∧
    (computeMetricAnglesFromLandmarks lm).back = specCombine (backL lm) (backR lm) ∧
    (computeMetricAnglesFromLandmarks lm).elbow = specCombine (elbowL lm) (elbowR lm) ∧
    (computeMetricAnglesFromLandmarks lm).body = specCombine (bodyL lm) (bodyR lm) :=
  ⟨combineLR_eq_specCombine _ _, combineLR_eq_specCombine _ _,
   combineLR_eq_specCombine _ _, combineLR_eq_specCombine _ _⟩

/-!  The frame scorer.  -/

theorem filterMap_scores (ma : MetricAngles) (l : List (Metric × MSpec)) :
    l.filterMap (fun msp => getMetricScore (MetricAngles.get ma msp.1) (some msp.2)) =
      (l.filter (fun msp => (MetricAngles.get ma msp.1).isSome)).map
        (fun msp => (getMetricScore (MetricAngles.get ma msp.1) (some msp.2)).getD 0) := by
  induction l with
  | nil => rfl
  | cons h t ih =>
    cases hv : MetricAngles.get ma h.1 with
    | none =>
      have hg : getMetricScore Option.none (some h.2) = Option.none := rfl
      simp [List.filterMap_cons, List.filter_cons, hv, hg, ih]
    | some v =>
      obtain ⟨w, hw⟩ : ∃ w, getMetricScore (some v) (some h.2) = some w := ⟨_, rfl⟩
      simp [List.filterMap_cons, List.filter_cons, hv, hw, ih]

/-- C4: the frame score is the arithmetic mean of the per-metric scores over
exactly the rule metrics whose extracted value is non-null, and is null when
no metric has a value. -/
theorem frameScore_mean (rule : Rule) (ma : MetricAngles) :
    ((rule.metrics.filter (fun msp => (MetricAngles.get ma msp.1).isSome)) = [] →
      frameScoreRaw rule ma = Option.none) ∧
    ((rule.metrics.filter (fun msp => (MetricAngles.get ma msp.1).isSome)) ≠ [] →
      frameScoreRaw rule ma = some
        ((((rule.metrics.filter (fun msp => (MetricAngles.get ma msp.1).isSome)).map
            (fun msp => (getMetricScore (MetricAngles.get ma msp.1) (some msp.2)).getD 0)).sum)
          / ((rule.metrics.filter (fun msp => (MetricAngles.get ma msp.1).isSome)).length))) := by
  constructor
  · intro h
    unfold frameScoreRaw metricScores
    rw [filterMap_scores, h]
    simp
  · intro h
    unfold frameScoreRaw metricScores
    rw [filterMap_scores]
    have hlen : ((rule.metrics.filter (fun msp => (MetricAngles.get ma msp.1).isSome)).map
        (fun msp => (getMetricScore (MetricAngles.get ma msp.1) (some msp.2)).getD 0)).length ≠ 0 := by
      rw [List.length_map]
      exact fun h0 => h (List.length_eq_zero.mp h0)
    rw [if_neg hlen]
    simp [List.length_map]

/-- Witness for C4: on a squat frame with knee 90° and back 180° both metrics
score 1 and the frame score is their mean, 1. -/
theorem frameScore_mean_witness : frameScoreRaw squatRule maW = some 1 := by
  have hf : (squatRule.metrics.filter (fun msp => (MetricAngles.get maW msp.1).isSome))
      = squatRule.metrics := rfl
  have h := (frameScore_mean squatRule maW).2 (by rw [hf]; simp [squatRule])
  rw [h, hf]
  norm_num [squatRule, MetricAngles.get, maW, getMetricScore]

/-!  The series handed to the smoothing filter.  -/

/-- C2 counterexample: on `lmFK` the front-knee metric is 90° (the left knee
is forward) while the bilateral knee mean is 135°; under the lunge rule
(primary metric `front_knee`) the series that is smoothed is `[135]`, the
knee series, not the front-knee series `[90]`. -/
theorem front_knee_series_cx :
    lungeRule.primaryMetric = Metric.front_knee ∧
    (computeMetricAnglesFromLandmarks lmFK).front_knee = some 90 ∧
    smoothSeries (primarySeries lungeRule (mkTimeline lungeRule [⟨0, lmFK⟩])) 2 = [some 135] ∧
    some (135 : ℝ) ≠ some 90 := by
  refine ⟨rfl, by rw [cm_lmFK], ?_, ?_⟩
  · have h1 : primarySeries lungeRule (mkTimeline lungeRule [⟨0, lmFK⟩])
        = [(computeMetricAnglesFromLandmarks lmFK).knee] := rfl
    rw [h1, cm_lmFK]
    show [some (((135 : ℝ) + 0) / ((1 : ℕ) : ℝ))] = [some (135 : ℝ)]
    norm_num
  · intro h
    exact absurd (Option.some_inj.mp h) (by norm_num)

/-- C2 amended: for every rule whose primary metric is `front_knee`, the
series selected for smoothing and segmentation is the per-frame knee series
(the bilateral mean), not the front-knee series. -/
theorem front_knee_series_amended (rule : Rule) (tl : List AnalyticsPoint)
    (h : rule.primaryMetric = Metric.front_knee) :
    primarySeries rule tl = tl.map AnalyticsPoint.kneeAngle := by
  unfold primarySeries
  rw [h]
  rfl

/-- Witness for the amended C2 at a concrete timeline. -/
theorem front_knee_series_amended_witness :
    primarySeries lungeRule [ptHi 0] = [(ptHi 0).kneeAngle] :=
  front_knee_series_amended lungeRule [ptHi 0] rfl

/-!  Hold mode.  -/

/-- C8: under a rule with polarity `none` and unbounded `minFramesForRep`
(the hold configuration) the engine emits zero reps regardless of the series
shape: the rep list is empty and all rep-level aggregates are zero. -/
theorem holdMode_zero_reps (s : Session) (rule : Rule) (opts : AnalyzeOpts)
    (_hp : rule.polarity = Polarity.none) (hm : rule.minFramesForRep = ⊤) :
    (analyzeByRule s rule opts).repDetails = [] ∧
    (analyzeByRule s rule opts).goodReps = 0 ∧
    (analyzeByRule s rule opts).badReps = 0 ∧
    (∀ c, (analyzeByRule s rule opts).repCategoryCounts c = 0) := by
  have hrep : ∀ (tl : List AnalyticsPoint) (sm : List (Option ℝ)) (si ei : ℕ),
      mkRep rule tl sm si ei = Option.none := by
    intro tl sm si ei
    unfold mkRep
    rw [hm]
    have hc : ((ei - si : ℕ) : ℕ∞) < (if (⊤ : ℕ∞) = 0 then (6 : ℕ∞) else ⊤) := by
      rw [if_neg (by simp)]
      exact Ne.lt_top (by simp)
    rw [if_pos hc]
  have hfm : ∀ (ki : List ℕ) (tl : List AnalyticsPoint) (sm : List (Option ℝ)),
      (ki.zip ki.tail).filterMap (fun p => mkRep rule tl sm p.1 p.2) = [] := by
    intro ki tl sm
    exact List.filterMap_eq_nil_iff.mpr (fun p _ => hrep _ _ _ _)
  refine ⟨?_, ?_, ?_, fun c => ?_⟩ <;> simp [analyzeByRule, hfm]

/-- Witness for C8: the plank rule on the six-frame test session. -/
theorem holdMode_zero_reps_witness :
    (analyzeByRule testSession plankRule testOpts).repDetails = [] ∧
    (analyzeByRule testSession plankRule testOpts).goodReps = 0 ∧
    (analyzeByRule testSession plankRule testOpts).badReps = 0 ∧
    (∀ c, (analyzeByRule testSession plankRule testOpts).repCategoryCounts c = 0) :=
  holdMode_zero_reps testSession plankRule testOpts rfl rfl

/-!  Aggregation.  -/

/-- C9: `accuracyPct` is `round(100 × mean(score, null as 0))`, recomputable
exactly from the returned timeline, and coincides with
`overallWeightedScore`. -/
theorem accuracy_recompute (s : Session) (rule : Rule) (opts : AnalyzeOpts) :
    (analyzeByRule s rule opts).accuracyPct =
      round ((100 : ℝ) * (((analyzeByRule s rule opts).timeline.map
          (fun p => (AnalyticsPoint.score p).getD 0)).sum
        / ((analyzeByRule s rule opts).timeline.length : ℝ))) ∧
    (analyzeByRule s rule opts).accuracyPct = (analyzeByRule s rule opts).overallWeightedScore ∧
    (analyzeByRule s rule opts).totalFrames = (analyzeByRule s rule opts).timeline.length := by
  refine ⟨?_, rfl, rfl⟩
  have htl : (analyzeByRule s rule opts).timeline = mkTimeline rule s.frames := rfl
  rw [htl]
  show round ((if (mkTimeline rule s.frames).length = 0 then (0 : ℝ)
      else ((mkTimeline rule s.frames).map (fun p => (AnalyticsPoint.score p).getD 0)).sum
        / ((mkTimeline rule s.frames).length : ℝ)) * 100) = _
  by_cases h : (mkTimeline rule s.frames).length = 0
  · rw [List.length_eq_zero.mp h]
    simp
  · rw [if_neg h, mul_comm]

/-!  Rule resolution.  -/

theorem find?_map_keys (l : List (List Char × Rule)) (p : List Char → Bool) :
    (l.map Prod.fst).find? p = (l.find? (fun kr => p kr.1)).map Prod.fst := by
  induction l with
  | nil => rfl
  | cons h t ih =>
    cases hp : p h.1 with
    | false =>
      rw [List.map_cons, List.find?_cons_of_neg _ (by simp [hp]),
        List.find?_cons_of_neg _ (by simp [hp]), ih]
    | true =>
      rw [List.map_cons, List.find?_cons_of_pos _ hp, List.find?_cons_of_pos _ (by simp [hp])]
      rfl

theorem find?_beq_of_find? (l : List (List Char × Rule)) (q : (List Char × Rule) → Bool)
    (a : List Char × Rule) (hnd : (l.map Prod.fst).Nodup) (h : l.find? q = some a) :
    l.find? (fun kr => kr.1 == a.1) = some a := by
  induction l with
  | nil => simp at h
  | cons hd t ih =>
    rw [List.map_cons] at hnd
    obtain ⟨hnotin, hnd2⟩ := List.nodup_cons.mp hnd
    cases hq : q hd with
    | false =>
      rw [List.find?_cons_of_neg _ (by simp [hq])] at h
      have hmem : a ∈ t := List.mem_of_find?_eq_some h
      have hne : ¬ ((hd.1 == a.1) = true) := by
        intro hbeq
        have heq : hd.1 = a.1 := by simpa using hbeq
        exact hnotin (heq ▸ List.mem_map_of_mem Prod.fst hmem)
      rw [List.find?_cons_of_neg _ (by simp [hne])]
      exact ih hnd2 h
    | true =>
      rw [List.find?_cons_of_pos _ hq] at h
      obtain rfl := Option.some_inj.mp h
      rw [List.find?_cons_of_pos _ (by simp)]

theorem firstMatch_eq_find? (n : List Char) (l : List (List Char × Rule)) :
    firstMatch n l = (l.find? (fun kr => occursIn kr.1 n)).map Prod.snd := by
  induction l with
  | nil => rfl
  | cons h t ih =>
    cases hv : occursIn h.1 n with
    | false => rw [firstMatch, if_neg (by simp [hv]), List.find?_cons_of_neg _ (by simp [hv]), ih]
    | true =>
      rw [firstMatch, if_pos (by simp [hv]), List.find?_cons_of_pos _ (by simp [hv])]
      rfl

/-- C7: rule resolution lowercases and trims the identifier, picks the first
registry key in declaration order that is a substring of it, and falls back
to the default Rule, so a Rule is always resolved — i.e. the source's
key-then-lookup resolution coincides with the spec's first-match recursion. -/
theorem resolveRule_spec (ex : List Char) : resolveRule ex = specResolveRule ex := by
  simp only [resolveRule, specResolveRule, resolveRuleKey]
  rw [firstMatch_eq_find?, find?_map_keys]
  cases hf : RULES.find? (fun kr => occursIn kr.1 (normalizeId ex)) with
  | none => rfl
  | some kr =>
    have hnd : (RULES.map Prod.fst).Nodup := by decide
    have h2 : RULES.find? (fun p => p.1 == kr.1) = some kr :=
      find?_beq_of_find? RULES _ kr hnd hf
    show (Option.map Prod.snd (RULES.find? (fun p => p.1 == kr.1))).getD defaultRule = kr.2
    rw [h2]
    rfl

/-!  Concrete evaluation of the pipeline on `testSession`.  -/

theorem getMetricScore_eval (v ideal tol err sc : ℝ) (htol : 0 < tol)
    (herr : |v - ideal| = err) (h : max 0 (1 - min 1 (err / tol)) = sc) :
    getMetricScore (some v) (some ⟨ideal, tol⟩) = some sc := by
  simp only [getMetricScore]
  rw [if_neg (not_le.mpr htol), herr, h]

theorem gmsHi : getMetricScore (some 180) (some ⟨90, 40⟩) = some 0 :=
  getMetricScore_eval 180 90 40 90 0 (by norm_num) (by norm_num)
    (by norm_num [min_def, max_def])

theorem gmsLo : getMetricScore (some 90) (some ⟨90, 40⟩) = some 1 :=
  getMetricScore_eval 90 90 40 0 1 (by norm_num) (by norm_num)
    (by norm_num [min_def, max_def])

theorem frameScoreRaw_lmHi :
    frameScoreRaw testRule (computeMetricAnglesFromLandmarks lmHi) = some 0 := by
  rw [cm_lmHi]
  unfold frameScoreRaw metricScores
  rw [show (testRule.metrics) = [(Metric.knee, (⟨90, 40⟩ : MSpec))] from rfl]
  simp [MetricAngles.get, gmsHi]

theorem frameScoreRaw_lmLo :
    frameScoreRaw testRule (computeMetricAnglesFromLandmarks lmLo) = some 1 := by
  rw [cm_lmLo]
  unfold frameScoreRaw metricScores
  rw [show (testRule.metrics) = [(Metric.knee, (⟨90, 40⟩ : MSpec))] from rfl]
  simp [MetricAngles.get, gmsLo]

theorem round3_zero : round3 0 = 0 := by
  simp [round3]

theorem round3_one : round3 1 = 1 := by
  rw [round3, one_mul, show ((1000 : ℝ)) = ((1000 : ℤ) : ℝ) by norm_num, round_intCast]
  norm_num

theorem mkPoint_lmHi (t : ℝ) : mkPoint testRule ⟨t, lmHi⟩ = ptHi t := by
  show (⟨t, (computeMetricAnglesFromLandmarks lmHi).knee, (computeMetricAnglesFromLandmarks lmHi).back,
    (computeMetricAnglesFromLandmarks lmHi).elbow, (computeMetricAnglesFromLandmarks lmHi).body,
    (computeMetricAnglesFromLandmarks lmHi).hip,
    (frameScoreRaw testRule (computeMetricAnglesFromLandmarks lmHi)).map round3,
    frameCategoryFromScore ((frameScoreRaw testRule (computeMetricAnglesFromLandmarks lmHi)).map round3),
    match (frameScoreRaw testRule (computeMetricAnglesFromLandmarks lmHi)).map round3 with
    | some s => if testRule.framePassThreshold ≤ s then true else false
    | Option.none => false⟩ : AnalyticsPoint) = ptHi t
  rw [frameScoreRaw_lmHi, cm_lmHi]
  simp only [Option.map_some', round3_zero]
  unfold ptHi frameCategoryFromScore
  norm_num [testRule]

theorem mkPoint_lmLo (t : ℝ) : mkPoint testRule ⟨t, lmLo⟩ = ptLo t := by
  show (⟨t, (computeMetricAnglesFromLandmarks lmLo).knee, (computeMetricAnglesFromLandmarks lmLo).back,
    (computeMetricAnglesFromLandmarks lmLo).elbow, (computeMetricAnglesFromLandmarks lmLo).body,
    (computeMetricAnglesFromLandmarks lmLo).hip,
    (frameScoreRaw testRule (computeMetricAnglesFromLandmarks lmLo)).map round3,
    frameCategoryFromScore ((frameScoreRaw testRule (computeMetricAnglesFromLandmarks lmLo)).map round3),
    match (frameScoreRaw testRule (computeMetricAnglesFromLandmarks lmLo)).map round3 with
    | some s => if testRule.framePassThreshold ≤ s then true else false
    | Option.none => false⟩ : AnalyticsPoint) = ptLo t
  rw [frameScoreRaw_lmLo, cm_lmLo]
  simp only [Option.map_some', round3_one]
  unfold ptLo frameCategoryFromScore
  norm_num [testRule]

theorem timeline_eval : mkTimeline testRule testSession.frames = testTimeline := by
  unfold mkTimeline testSession testTimeline
  simp [mkPoint_lmHi, mkPoint_lmLo]

theorem smooth_eval : smoothSeries testSmoothed 0 = testSmoothed := by
  show [some (((180 : ℝ) + 0) / ((1 : ℕ) : ℝ)), some (((90 : ℝ) + 0) / ((1 : ℕ) : ℝ)),
        some (((180 : ℝ) + 0) / ((1 : ℕ) : ℝ)), some (((180 : ℝ) + 0) / ((1 : ℕ) : ℝ)),
        some (((90 : ℝ) + 0) / ((1 : ℕ) : ℝ)), some (((180 : ℝ) + 0) / ((1 : ℕ) : ℝ))]
      = testSmoothed
  unfold testSmoothed
  norm_num

theorem valleys_eval : detectValleys testSmoothed = [1, 4] := by
  unfold detectValleys
  rw [show (testSmoothed.length) = 6 from rfl, show List.range 6 = [0, 1, 2, 3, 4, 5] from rfl]
  simp only [List.filter_cons, List.filter_nil]
  norm_num [optLtB,
    show testSmoothed[0]? = some (some (180 : ℝ)) from rfl,
    show testSmoothed[1]? = some (some (90 : ℝ)) from rfl,
    show testSmoothed[2]? = some (some (180 : ℝ)) from rfl,
    show testSmoothed[3]? = some (some (180 : ℝ)) from rfl,
    show testSmoothed[4]? = some (some (90 : ℝ)) from rfl,
    show testSmoothed[5]? = some (some (180 : ℝ)) from rfl,
    show testSmoothed[6]? = (Option.none : Option (Option ℝ)) from rfl]

theorem mkRep_eval : mkRep testRule testTimeline testSmoothed 1 4 = some testRep := by
  unfold mkRep
  rw [if_neg (by decide), if_neg (by decide)]
  refine congrArg some ?_
  have hmin : (listMin ((sliceList testSmoothed 1 4).filterMap id)).getD 0 = 90 := by
    show min (90 : ℝ) (min 180 (min 180 90)) = 90
    norm_num [min_def]
  have hmax : (listMax ((sliceList testSmoothed 1 4).filterMap id)).getD 0 = 180 := by
    show max (90 : ℝ) (max 180 (max 180 90)) = 180
    norm_num [max_def]
  have havg : (if (((sliceList testTimeline 1 4).map
        (fun s => (AnalyticsPoint.score s).getD 0)).length) = 0 then (0 : ℝ)
      else ((sliceList testTimeline 1 4).map (fun s => (AnalyticsPoint.score s).getD 0)).sum
        / (((sliceList testTimeline 1 4).map (fun s => (AnalyticsPoint.score s).getD 0)).length)) = 1 / 2 := by
    show ((1 : ℝ) + (0 + (0 + (1 + 0)))) / ((4 : ℕ) : ℝ) = 1 / 2
    norm_num
  have hgood : repIsGood testRule 90 180 (1 / 2) = true := by
    have hlk : lookupMetric testRule.metrics testRule.primaryMetric = some ⟨90, 40⟩ := rfl
    unfold repIsGood repDepthBool repCloseBool
    rw [hlk]
    norm_num [testRule]
  unfold testRep
  rw [RepDetail.mk.injEq]
  refine ⟨rfl, rfl, by rw [hmin], by rw [hmax], ?_, havg, havg, ?_, rfl⟩
  · rw [hmin, hmax, havg, hgood]
  · rw [havg]
    unfold frameCategoryFromScore
    norm_num

theorem repDetails_eval :
    (analyzeByRule testSession testRule testOpts).repDetails = [testRep] := by
  simp only [analyzeByRule]
  rw [timeline_eval]
  rw [show (testOpts.smoothRadius.getD 2) = 0 from rfl]
  rw [show primarySeries testRule testTimeline = testSmoothed from rfl]
  rw [smooth_eval]
  rw [if_neg (by decide : ¬(testRule.polarity = Polarity.peak))]
  rw [valleys_eval]
  rw [show (([1, 4] : List ℕ).zip ([1, 4] : List ℕ).tail) = [(1, 4)] from rfl]
  simp [mkRep_eval]

/-!  The rep segmenter's classification.  -/

/-- Shape of every rep record produced by `mkRep`: the stored `minV`/`maxV`
are `some`, and `isGood` was computed by `repIsGood` from the stored values. -/
theorem mkRep_fields (rule : Rule) (tl : List AnalyticsPoint) (sm : List (Option ℝ))
    (si ei : ℕ) (rep : RepDetail) (h : mkRep rule tl sm si ei = some rep) :
    ∃ minV maxV avg, rep.minV = some minV ∧ rep.maxV = some maxV ∧
      rep.avgFrameScore = avg ∧ rep.isGood = repIsGood rule minV maxV avg := by
  simp only [mkRep] at h
  split at h
  all_goals split at h
  any_goals exact Option.noConfusion h
  all_goals split at h
  any_goals exact Option.noConfusion h
  all_goals obtain rfl := Option.some_inj.mp h
  all_goals exact ⟨_, _, _, rfl, rfl, rfl, rfl⟩

/-- C5: for every emitted rep (under a valley or peak rule), `isGood` holds
exactly when (`meetsDepth` and the rep's mean frame score reaches
`correctRatioThreshold`) or (`closeDepth` — the depth test against half the
tolerance — and the mean reaches `softThreshold = max(0.4, threshold − 0.18)`). -/
theorem repIsGood_spec (s : Session) (rule : Rule) (opts : AnalyzeOpts) (rep : RepDetail)
    (hmem : rep ∈ (analyzeByRule s rule opts).repDetails)
    (hpol : rule.polarity ≠ Polarity.none) :
    rep.isGood = true ↔ specIsGoodRep rule rep := by
  obtain ⟨p, -, hp⟩ := List.mem_filterMap.mp hmem
  obtain ⟨minV, maxV, avg, hmin, hmax, havg, hgood⟩ := mkRep_fields _ _ _ _ _ _ hp
  rw [hgood]
  unfold specIsGoodRep specMeetsDepth specCloseDepth
  rw [hmin, hmax, havg]
  unfold repIsGood repDepthBool repCloseBool
  cases hlk : lookupMetric rule.metrics rule.primaryMetric with
  | none =>
    simp [iteTF]
  | some sp =>
    cases hpol2 : rule.polarity with
    | none => exact absurd hpol2 hpol
    | valley => simp [iteTF]
    | peak => simp [iteTF]

/-- Witness for C5: the single rep of the test session, which is emitted and
classified good. -/
theorem repIsGood_spec_witness :
    testRep ∈ (analyzeByRule testSession testRule testOpts).repDetails ∧
    (testRep.isGood = true ↔ specIsGoodRep testRule testRep) := by
  have hmem : testRep ∈ (analyzeByRule testSession testRule testOpts).repDetails := by
    rw [repDetails_eval]
    exact List.mem_singleton.mpr rfl
  exact ⟨hmem, repIsGood_spec testSession testRule testOpts testRep hmem (by decide)⟩

/-!  Rounded scores drive everything downstream.  -/

/-- C10: the stored per-frame score is the mean metric score rounded to three
decimals, the frame's category and legacy `correct` flag are computed from the
stored (rounded) value, the rep mean frame score is the mean of the stored
scores over its window (null as 0), and `accuracyPct` is the rounding of 100
times the mean of the stored scores. -/
theorem rounded_score_flow :
    (∀ (rule : Rule) (f : Frame) (m : ℝ),
      frameScoreRaw rule (computeMetricAnglesFromLandmarks f.landmarks) = some m →
        (mkPoint rule f).score = some (round3 m) ∧
        (mkPoint rule f).category = frameCategoryFromScore (some (round3 m)) ∧
        ((mkPoint rule f).correct = true ↔ rule.framePassThreshold ≤ round3 m)) ∧
    (∀ (rule : Rule) (tl : List AnalyticsPoint) (sm : List (Option ℝ)) (si ei : ℕ)
        (rep : RepDetail),
      mkRep rule tl sm si ei = some rep →
        rep.avgFrameScore =
          (if (((sliceList tl si ei).map (fun p => (AnalyticsPoint.score p).getD 0)).length) = 0
            then (0 : ℝ)
            else ((sliceList tl si ei).map (fun p => (AnalyticsPoint.score p).getD 0)).sum
              / (((sliceList tl si ei).map (fun p => (AnalyticsPoint.score p).getD 0)).length))) ∧
    (∀ (s : Session) (rule : Rule) (opts : AnalyzeOpts),
      (analyzeByRule s rule opts).accuracyPct =
        round ((if (analyzeByRule s rule opts).timeline.length = 0 then (0 : ℝ)
            else ((analyzeByRule s rule opts).timeline.map
                (fun p => (AnalyticsPoint.score p).getD 0)).sum
              / ((analyzeByRule s rule opts).timeline.length : ℝ)) * 100)) := by
  refine ⟨?_, ?_, ?_⟩
  · intro rule f m h
    refine ⟨?_, ?_, ?_⟩
    · show ((frameScoreRaw rule (computeMetricAnglesFromLandmarks f.landmarks)).map round3)
        = some (round3 m)
      rw [h]
      rfl
    · show frameCategoryFromScore
          ((frameScoreRaw rule (computeMetricAnglesFromLandmarks f.landmarks)).map round3)
        = frameCategoryFromScore (some (round3 m))
      rw [h]
      rfl
    · have hc : (mkPoint rule f).correct
          = (if rule.framePassThreshold ≤ round3 m then true else false) := by
        show (match (frameScoreRaw rule (computeMetricAnglesFromLandmarks f.landmarks)).map round3
              with
              | some s => if rule.framePassThreshold ≤ s then true else false
              | Option.none => false) = _
        rw [h]
        rfl
      rw [hc]
      exact iteTF _
  · intro rule tl sm si ei rep h
    simp only [mkRep] at h
    split at h
    all_goals split at h
    any_goals exact Option.noConfusion h
    all_goals split at h
    any_goals exact Option.noConfusion h
    all_goals obtain rfl := Option.some_inj.mp h
    all_goals rfl
  · intro s rule opts
    rfl

/-- Witness for C10: concrete rounded score and rep mean. -/
theorem rounded_score_flow_witness :
    (mkPoint testRule ⟨1, lmLo⟩).score = some 1 ∧ testRep.avgFrameScore = 1 / 2 := by
  constructor
  · have h := (rounded_score_flow.1 testRule ⟨1, lmLo⟩ 1 frameScoreRaw_lmLo).1
    rw [h, round3_one]
  · have h := rounded_score_flow.2.1 testRule testTimeline testSmoothed 1 4 testRep mkRep_eval
    rw [h]
    show ((1 : ℝ) + (0 + (0 + (1 + 0)))) / ((4 : ℕ) : ℝ) = 1 / 2
    norm_num

end

